import Mathlib

/-
  Verification development for the HY-Motion microservice layer (api.py).

  The service layer is shallowly embedded: os.environ becomes an association
  list, the filesystem becomes the list of existing paths, the external
  collaborators (the T2MRuntime constructor, the mmgp library, the generation
  call) become explicit context records saying whether each external step
  succeeds, and the module-level singleton `_runtime` becomes an explicit
  state value threaded through `get_runtime`.
-/

namespace HYMotion

/-- An environment models os.environ as an association list from variable
names to string values; the first binding for a key wins. -/
abbrev Env : Type := List (String × String)

def Env.get (e : Env) (k : String) : Option String :=
  (List.find? (fun p => p.1 == k) e).map (fun p => p.2)

def Env.getD (e : Env) (k d : String) : String :=
  (Env.get e k).getD d

/-- Models dict.setdefault on os.environ: insert the binding only when the
key is absent. -/
def Env.setdefault (e : Env) (k v : String) : Env :=
  match Env.get e k with
  | some _ => e
  | none => e ++ [(k, v)]

/-- Models the module-import-time environment mutations of api.py lines
25-28: setdefault of QWEN_QUANTIZATION and DISABLE_PROMPT_ENGINEERING, and
the conditional assignment of USE_HF_MODELS (equivalent to a setdefault). -/
def initEnv (e : Env) : Env :=
  let e1 := Env.setdefault e "QWEN_QUANTIZATION" "int4"
  let e2 := Env.setdefault e1 "DISABLE_PROMPT_ENGINEERING" "True"
  Env.setdefault e2 "USE_HF_MODELS" "1"

/-- The filesystem is modelled as the list of paths that exist. -/
abbrev Fs : Type := List String

def pathExists (fs : Fs) (p : String) : Bool :=
  fs.contains p

/-- Models MODEL_PATH = os.environ.get("MODEL_PATH", "ckpts/tencent/HY-Motion-1.0-Lite"). -/
def MODEL_PATH (env : Env) : String :=
  Env.getD env "MODEL_PATH" "ckpts/tencent/HY-Motion-1.0-Lite"

/-- Models CONFIG_PATH = os.path.join(MODEL_PATH, "config.yml"). -/
def CONFIG_PATH (env : Env) : String :=
  MODEL_PATH env ++ "/config.yml"

/-- Models CKPT_PATH = os.path.join(MODEL_PATH, "latest.ckpt"). -/
def CKPT_PATH (env : Env) : String :=
  MODEL_PATH env ++ "/latest.ckpt"

/-- Models the constant MOTION_FPS = 30 of api.py line 36. -/
def MOTION_FPS : Nat := 30

/-- Whitespace stripped by Python int(): space, tab, newline, carriage
return, vertical tab and form feed. -/
def pySpace (c : Char) : Bool :=
  c == ' ' || c == '\t' || c == '\n' || c == '\r' || c == Char.ofNat 11 || c == Char.ofNat 12

/-- The numeric value of a nonempty all-digit character list. -/
def digitsVal (cs : List Char) : Nat :=
  cs.foldl (fun n c => n * 10 + (c.toNat - 48)) 0

/-- A nonempty all-digit character list parses to its value. -/
def parseDigits (cs : List Char) : Option Nat :=
  if cs.isEmpty then none
  else if cs.all Char.isDigit then some (digitsVal cs) else none

/-- Models Python int() applied to a string: optional surrounding
whitespace, an optional sign, then decimal digits; `none` models the
ValueError raised on any other input. -/
def pyInt (s : String) : Option Int :=
  let t := ((s.data.dropWhile pySpace).reverse.dropWhile pySpace).reverse
  match t with
  | [] => none
  | c :: rest =>
    if c == '-' then (parseDigits rest).map (fun n => -(n : Int))
    else if c == '+' then (parseDigits rest).map (fun n => (n : Int))
    else (parseDigits t).map (fun n => (n : Int))

/-- Models str.lower(): lower every character (the environment values this
service compares are ASCII). Mapping over the underlying character list is
extensionally the same as String.map Char.toLower. -/
def pyLower (s : String) : String :=
  String.mk (s.data.map Char.toLower)

/-- The T2MRuntime constructor call of api.py lines 74-83, recorded as the
arguments the service passes to the external collaborator. -/
structure T2MRuntime where
  config_path : String
  ckpt_name : String
  skip_text : Bool
  device_ids : Option (List Nat)
  skip_model_loading : Bool
  disable_prompt_engineering : Bool
  prompt_engineering_host : Option String
  prompt_engineering_model_path : Option String
deriving DecidableEq

/-- Outcomes of the external steps inside _apply_mmgp that this layer does
not control: whether `from mmgp import offload` succeeds, whether
extract_models_for_mmgp returns a truthy component set, and whether the
offload.profile call raises. -/
structure MmgpCtx where
  mmgpInstalled : Bool
  pipeNonempty : Bool
  profileCallRaises : Bool
deriving DecidableEq

/-- The observable outcome of one _apply_mmgp call (api.py lines 41-65).
`raisedValueError` is the one outcome that escapes the function: the
int() parse of MMGP_PROFILE on line 43 sits outside the try block. -/
inductive MmgpOutcome where
  | raisedValueError
  | noop
  | skippedImport
  | skippedEmptyPipe
  | errorSwallowed
  | applied (profile : Int) (verbose : Int) (budgets : Option Nat)
deriving DecidableEq

/-- Shallow embedding of _apply_mmgp (api.py lines 41-65), line by line:
parse MMGP_PROFILE with default "1"; return when profile is not positive;
inside the try block, import mmgp (ImportError swallowed), extract the
component set (empty set means skip with a warning), add a 4000 budget for
every profile other than 1 and 3, parse MMGP_VERBOSE with default "1"
(a parse failure here is caught by the except Exception handler), and call
offload.profile (any failure swallowed). -/
def applyMmgp (env : Env) (ctx : MmgpCtx) : MmgpOutcome :=
  match pyInt (Env.getD env "MMGP_PROFILE" "1") with
  | none => MmgpOutcome.raisedValueError
  | some profile =>
    if profile ≤ 0 then MmgpOutcome.noop
    else if ctx.mmgpInstalled = false then MmgpOutcome.skippedImport
    else if ctx.pipeNonempty = false then MmgpOutcome.skippedEmptyPipe
    else
      let budgets : Option Nat := if profile ≠ 1 ∧ profile ≠ 3 then some 4000 else none
      match pyInt (Env.getD env "MMGP_VERBOSE" "1") with
      | none => MmgpOutcome.errorSwallowed
      | some verbose =>
        if ctx.profileCallRaises then MmgpOutcome.errorSwallowed
        else MmgpOutcome.applied profile verbose budgets

/-- Whether the external T2MRuntime constructor succeeds, plus the mmgp
context, for one get_runtime call. -/
structure RunCtx where
  constructorOk : Bool
  mmgp : MmgpCtx
deriving DecidableEq

/-- The exceptions get_runtime can raise: the FileNotFoundError of line 72,
any other constructor failure, and the ValueError escaping _apply_mmgp. -/
inductive RuntimeError where
  | fileNotFound (msg : String)
  | constructionError
  | mmgpValueError
deriving DecidableEq

/-- The T2MRuntime value built on api.py lines 74-83: skip_model_loading is
set exactly when the checkpoint file is absent, and prompt engineering is
disabled exactly when the environment value lowercases to "true". -/
def mkRuntime (env : Env) (fs : Fs) : T2MRuntime :=
  { config_path := CONFIG_PATH env
    ckpt_name := CKPT_PATH env
    skip_text := false
    device_ids := none
    skip_model_loading := !(pathExists fs (CKPT_PATH env))
    disable_prompt_engineering :=
      pyLower (Env.getD env "DISABLE_PROMPT_ENGINEERING" "true") == "true"
    prompt_engineering_host := none
    prompt_engineering_model_path := none }

/-- Shallow embedding of get_runtime (api.py lines 68-85). The module
global `_runtime` is the explicit state argument; the returned pair is
(result, state after the call). The slot is assigned on line 74, before
_apply_mmgp runs on line 84, so a ValueError escaping _apply_mmgp leaves
the slot already set. -/
def get_runtime (env : Env) (fs : Fs) (ctx : RunCtx) (st : Option T2MRuntime) :
    Except RuntimeError T2MRuntime × Option T2MRuntime :=
  match st with
  | some r => (Except.ok r, some r)
  | none =>
    if pathExists fs (CONFIG_PATH env) = false then
      (Except.error (RuntimeError.fileNotFound ("Config not found: " ++ CONFIG_PATH env)), none)
    else if ctx.constructorOk = false then
      (Except.error RuntimeError.constructionError, none)
    else
      let r := mkRuntime env fs
      match applyMmgp env ctx.mmgp with
      | MmgpOutcome.raisedValueError => (Except.error RuntimeError.mmgpValueError, some r)
      | _ => (Except.ok r, some r)

/-- A nested list of numbers: the plain-Python-sequence data underlying
every array value in this layer. -/
inductive NList where
  | scalar (v : Int)
  | list (xs : List NList)

/-- The numpy-style shape of nested data: a scalar has shape [], a list
has its length followed by the shape of its first element. -/
def nshape : NList → List Nat
  | NList.scalar _ => []
  | NList.list [] => [0]
  | NList.list (h :: t) => (t.length + 1) :: nshape h

/-- The duck-typed array values _tensor_to_list receives: a torch tensor
(device-resident or host), a numpy array, or an already-plain Python
sequence. A torch tensor has the attributes cpu, numpy, shape and tolist;
a numpy array has shape and tolist but neither cpu nor numpy; a plain
Python sequence has none of the four. -/
inductive ArrayLike where
  | torch (onDevice : Bool) (a : NList)
  | nparray (a : NList)
  | plainList (a : NList)

/-- Models `if hasattr(x, "cpu"): x = x.cpu()`: a torch tensor moves to
host; everything else is left alone. -/
def step_cpu : ArrayLike → ArrayLike
  | ArrayLike.torch _ a => ArrayLike.torch false a
  | x => x

/-- Models `if hasattr(x, "numpy"): x = x.numpy()`: a torch tensor becomes
a numpy array; everything else is left alone. -/
def step_numpy : ArrayLike → ArrayLike
  | ArrayLike.torch _ a => ArrayLike.nparray a
  | x => x

/-- Models reading x.shape where available: torch tensors and numpy arrays
have a shape attribute, plain sequences do not. -/
def py_shape : ArrayLike → Option (List Nat)
  | ArrayLike.torch _ a => some (nshape a)
  | ArrayLike.nparray a => some (nshape a)
  | ArrayLike.plainList _ => none

/-- Errors the serializer body can raise: AttributeError from calling a
missing method, IndexError from indexing an empty leading axis. -/
inductive PyError where
  | attributeError
  | indexError
deriving DecidableEq

/-- Models x[0]: select the first element along the leading axis, keeping
the array kind; an empty leading axis raises IndexError. -/
def py_getitem0 : ArrayLike → Except PyError ArrayLike
  | ArrayLike.torch b (NList.list (h :: _)) => Except.ok (ArrayLike.torch b h)
  | ArrayLike.nparray (NList.list (h :: _)) => Except.ok (ArrayLike.nparray h)
  | ArrayLike.plainList (NList.list (h :: _)) => Except.ok (ArrayLike.plainList h)
  | _ => Except.error PyError.indexError

/-- Models x.tolist(): torch tensors and numpy arrays convert to plain
nested lists; a plain Python sequence has no tolist method, so the call
raises AttributeError. -/
def py_tolist : ArrayLike → Except PyError NList
  | ArrayLike.torch _ a => Except.ok a
  | ArrayLike.nparray a => Except.ok a
  | ArrayLike.plainList _ => Except.error PyError.attributeError

/-- Shallow embedding of _tensor_to_list (api.py lines 88-97): transfer to
host if the cpu attribute exists, convert to numpy if the numpy attribute
exists, select index 0 whenever a shape attribute exists with at least one
axis, then call tolist. -/
def tensor_to_list (x0 : ArrayLike) : Except PyError NList :=
  let x1 := step_cpu x0
  let x2 := step_numpy x1
  match py_shape x2 with
  | some (_ :: _) =>
    -- a shape with a head is exactly a shape of length at least one
    match py_getitem0 x2 with
    | Except.ok x3 => py_tolist x3
    | Except.error e => Except.error e
  | some [] => py_tolist x2
  | none => py_tolist x2

/-- The request record of the MotionRequest pydantic model. -/
structure MotionRequest where
  text : String
  duration : Rat
  seed : Nat
  cfg_scale : Rat
deriving DecidableEq

/-- The pydantic Field bounds of api.py lines 115-118 (seed nonnegative is
carried by the Nat type; 0.5 is written as the rational one half). -/
def MotionRequest.valid (r : MotionRequest) : Bool :=
  decide (1 ≤ r.text.length) && decide (r.text.length ≤ 2000) &&
  decide (mkRat 1 2 ≤ r.duration) && decide (r.duration ≤ 30) &&
  decide ((1 : Rat) ≤ r.cfg_scale) && decide (r.cfg_scale ≤ 20)

/-- The dict returned by runtime.generate_motion, holding the four array
outputs the endpoint reads (batch dimension first). -/
structure ModelOutput where
  keypoints3d : ArrayLike
  rot6d : ArrayLike
  transl : ArrayLike
  root_rotations_mat : ArrayLike

/-- The motion part of the response body built on api.py lines 157-164. -/
structure MotionBody where
  keypoints3d : NList
  rot6d : NList
  transl : NList
  root_rotations_mat : NList
  num_frames : Nat
  fps : Nat

/-- The meta part of the response body built on api.py lines 165-169. -/
structure MetaBody where
  text : String
  duration : Rat
  seed : Nat

/-- The full success body of the /v1/motion endpoint. -/
structure ResponseBody where
  motion : MotionBody
  meta : MetaBody

/-- An HTTP-level response: a 200 body, or an error status with detail. -/
inductive Response where
  | ok (body : ResponseBody)
  | err (status : Nat) (detail : String)

/-- Shallow embedding of the generate_motion endpoint (api.py lines
126-170). `gen` models runtime.generate_motion: none means the call
raised (mapped to 503). A missing shape attribute or a too-short shape on
keypoints3d, or a serializer error on any of the four arrays, is an
uncaught exception outside the try block, which the hosting framework
turns into a 500. -/
def generate_motion (env : Env) (fs : Fs) (ctx : RunCtx)
    (gen : MotionRequest → Option ModelOutput)
    (st : Option T2MRuntime) (req : MotionRequest) : Response × Option T2MRuntime :=
  match get_runtime env fs ctx st with
  | (Except.error (RuntimeError.fileNotFound m), st1) =>
      (Response.err 503 ("Model not available: " ++ m), st1)
  | (Except.error _, st1) =>
      (Response.err 503 "Service unavailable", st1)
  | (Except.ok _, st1) =>
    match gen req with
    | none => (Response.err 503 "Generation failed", st1)
    | some out =>
      match (py_shape out.keypoints3d).bind (fun s => List.get? s 1),
            tensor_to_list out.keypoints3d, tensor_to_list out.rot6d,
            tensor_to_list out.transl, tensor_to_list out.root_rotations_mat with
      | some nf, Except.ok kp, Except.ok r6, Except.ok tr, Except.ok rrm =>
          (Response.ok
            { motion :=
              { keypoints3d := kp
                rot6d := r6
                transl := tr
                root_rotations_mat := rrm
                num_frames := nf
                fps := MOTION_FPS }
              meta := { text := req.text, duration := req.duration, seed := req.seed } }, st1)
      | _, _, _, _, _ => (Response.err 500 "Internal Server Error", st1)

/-
  Interleaving model for concurrent first use of get_runtime. The source
  contains no lock, so the statements of get_runtime from different threads
  may interleave freely. Each thread executes, in order: the
  `_runtime is None` read together with the config check (lines 70-72), the
  construct-and-assign statement (line 74), the offload application
  (line 84), and the `return _runtime` read (line 85). The shared state is
  the module global plus call counters on the construction and offload
  hooks, as the specification asks to observe.
-/

/-- Shared mutable state seen by all concurrent callers of get_runtime:
the singleton slot, and call counters on the construction hook and on the
offload-policy application. -/
structure RaceState where
  slot : Option T2MRuntime
  constructions : Nat
  offloadApplies : Nat
deriving DecidableEq

/-- Program counter of one thread running get_runtime. -/
inductive ThreadPhase where
  | checkSlot
  | construct
  | applyOffload
  | ret
  | finished (r : Option T2MRuntime)
  | failedConfig
deriving DecidableEq

/-- One atomic step of one thread running get_runtime, at the granularity
of the source statements. A finished or failed thread is stuck. -/
def threadStep (env : Env) (fs : Fs) (s : RaceState) :
    ThreadPhase → RaceState × ThreadPhase
  | ThreadPhase.checkSlot =>
    match s.slot with
    | some r => (s, ThreadPhase.finished (some r))
    | none =>
      if pathExists fs (CONFIG_PATH env) then (s, ThreadPhase.construct)
      else (s, ThreadPhase.failedConfig)
  | ThreadPhase.construct =>
      ({ slot := some (mkRuntime env fs)
         constructions := s.constructions + 1
         offloadApplies := s.offloadApplies }, ThreadPhase.applyOffload)
  | ThreadPhase.applyOffload =>
      ({ s with offloadApplies := s.offloadApplies + 1 }, ThreadPhase.ret)
  | ThreadPhase.ret => (s, ThreadPhase.finished s.slot)
  | p => (s, p)

/-- Runs a list of threads under an explicit schedule: each entry of the
schedule names the thread that performs the next atomic step. -/
def raceRun (env : Env) (fs : Fs) :
    List Nat → RaceState → List ThreadPhase → RaceState × List ThreadPhase
  | [], s, ts => (s, ts)
  | i :: rest, s, ts =>
    match List.get? ts i with
    | none => raceRun env fs rest s ts
    | some t =>
      let p := threadStep env fs s t
      raceRun env fs rest p.1 (ts.set i p.2)

/-- The initial shared state: empty slot, no calls recorded. -/
def raceInit : RaceState :=
  { slot := none, constructions := 0, offloadApplies := 0 }

/-
  Concrete inputs used by witnesses and counterexamples.
-/

/-- An empty environment: every variable takes its in-code default. -/
def envEmpty : Env := []

/-- An environment whose MMGP_PROFILE value is not an integer literal. -/
def envBadProfile : Env := [("MMGP_PROFILE", "abc")]

/-- An mmgp context in which the library imports, the extracted component
set is nonempty and the tuning call succeeds. -/
def mmgpOkCtx : MmgpCtx :=
  { mmgpInstalled := true, pipeNonempty := true, profileCallRaises := false }

/-- An mmgp context in which the mmgp library is not installed. -/
def mmgpNoLibCtx : MmgpCtx :=
  { mmgpInstalled := false, pipeNonempty := true, profileCallRaises := false }

/-- A run context whose constructor succeeds and whose mmgp library is
absent, so the offload pass is skipped benignly. -/
def runCtxNoLib : RunCtx := { constructorOk := true, mmgp := mmgpNoLibCtx }

/-- A run context whose constructor succeeds and whose offload pass
applies. -/
def runCtxOk : RunCtx := { constructorOk := true, mmgp := mmgpOkCtx }

/-- A filesystem holding only the default-path config file. -/
def fsConfigOnly : Fs := [CONFIG_PATH envEmpty]

/-- A generation hook that always raises. -/
def genNone : MotionRequest → Option ModelOutput := fun _ => none

/-- A well-formed request within all validation bounds. -/
def reqWalk : MotionRequest :=
  { text := "walk forward", duration := 3, seed := 42, cfg_scale := 5 }

/-- A model output whose keypoints tensor is device-resident with batch
size 1 and two frames, and whose other arrays are host numpy arrays. -/
def outSmall : ModelOutput :=
  { keypoints3d := ArrayLike.torch true
      (NList.list [NList.list [NList.scalar 0, NList.scalar 1]])
    rot6d := ArrayLike.nparray (NList.list [NList.list [NList.scalar 2]])
    transl := ArrayLike.nparray (NList.list [NList.list [NList.scalar 3]])
    root_rotations_mat := ArrayLike.nparray (NList.list [NList.list [NList.scalar 4]]) }

/-- A generation hook that returns outSmall for every request. -/
def genSmall : MotionRequest → Option ModelOutput := fun _ => some outSmall

/-- An environment selecting the custom offload profile 5. -/
def envProfile5 : Env := [("MMGP_PROFILE", "5")]

/-- The response body generate_motion produces for reqWalk over genSmall. -/
def bodySmall : ResponseBody :=
  { motion :=
    { keypoints3d := NList.list [NList.scalar 0, NList.scalar 1]
      rot6d := NList.list [NList.scalar 2]
      transl := NList.list [NList.scalar 3]
      root_rotations_mat := NList.list [NList.scalar 4]
      num_frames := 2
      fps := 30 }
    meta := { text := "walk forward", duration := 3, seed := 42 } }

/-
  Helper lemmas shared by the claim theorems.
-/

/-- Reading a key other than the one setdefault touched is unchanged. -/
theorem env_get_setdefault_ne (e : Env) (k k2 v2 : String) (hne : (k == k2) = false) :
    Env.get (Env.setdefault e k2 v2) k = Env.get e k := by
  unfold Env.setdefault
  cases hg : Env.get e k2 with
  | some w => rfl
  | none =>
    unfold Env.get
    rw [List.find?_append]
    cases hf : List.find? (fun p => p.1 == k) e with
    | some p => simp [hf]
    | none =>
      have h2 : (k2 == k) = false :=
        beq_eq_false_iff_ne.mpr (fun hh => (beq_eq_false_iff_ne.mp hne) hh.symm)
      simp [hf, List.find?, h2]

/-- Setdefault on an absent key makes the key read back the default. -/
theorem env_get_setdefault_absent (e : Env) (k v : String) (h : Env.get e k = none) :
    Env.get (Env.setdefault e k v) k = some v := by
  unfold Env.setdefault
  rw [h]
  have hf : List.find? (fun p => p.1 == k) e = none := by
    cases hx : List.find? (fun p => p.1 == k) e with
    | none => rfl
    | some p =>
      unfold Env.get at h
      rw [hx] at h
      simp at h
  unfold Env.get
  rw [List.find?_append, hf]
  simp [List.find?]

/-- When the config file is absent, get_runtime raises FileNotFoundError
before constructing anything and leaves the slot empty. -/
theorem get_runtime_config_missing (env : Env) (fs : Fs) (ctx : RunCtx)
    (h : pathExists fs (CONFIG_PATH env) = false) :
    get_runtime env fs ctx none =
      (Except.error (RuntimeError.fileNotFound ("Config not found: " ++ CONFIG_PATH env)),
        none) := by
  simp [get_runtime, h]

/-- When the config file exists, the constructor succeeds and the offload
application does not raise, get_runtime returns the constructed runtime
and caches it. -/
theorem get_runtime_success (env : Env) (fs : Fs) (ctx : RunCtx)
    (hconf : pathExists fs (CONFIG_PATH env) = true)
    (hcons : ctx.constructorOk = true)
    (hmm : applyMmgp env ctx.mmgp ≠ MmgpOutcome.raisedValueError) :
    get_runtime env fs ctx none =
      (Except.ok (mkRuntime env fs), some (mkRuntime env fs)) := by
  simp only [get_runtime, hconf, hcons]
  cases hA : applyMmgp env ctx.mmgp with
  | raisedValueError => exact absurd hA hmm
  | noop => simp
  | skippedImport => simp
  | skippedEmptyPipe => simp
  | errorSwallowed => simp
  | applied p v b => simp

/-- C2: under concurrent first use of get_runtime the source performs no
locking, so two callers can both pass the empty-slot check before either
assigns; the schedule below alternates two threads through the statements
of get_runtime and ends with two runtime constructions and two
offload-policy applications, not the single one the claim requires. -/
theorem race_two_constructions :
    (raceRun envEmpty fsConfigOnly [0, 1, 0, 1, 0, 1, 0, 1] raceInit
      [ThreadPhase.checkSlot, ThreadPhase.checkSlot]).1.constructions = 2 ∧
    (raceRun envEmpty fsConfigOnly [0, 1, 0, 1, 0, 1, 0, 1] raceInit
      [ThreadPhase.checkSlot, ThreadPhase.checkSlot]).1.offloadApplies = 2 :=
  ⟨rfl, rfl⟩

/-- C5: with MMGP_PROFILE absent from the environment (after the import
time environment initialization, which does not touch it), _apply_mmgp
parses the in-code default string "1" and applies profile 1, the maximal
offload strategy, not the balanced profile 3 that the module docstring
and the specification state as the default. -/
theorem mmgp_default_profile_is_one :
    applyMmgp (initEnv envEmpty) mmgpOkCtx = MmgpOutcome.applied 1 1 none := by
  rfl

/-- C6 counterexample: with the profile environment value "abc", the int()
parse on api.py line 43 sits outside the try block, so _apply_mmgp raises
a ValueError past its own boundary instead of returning normally. -/
theorem mmgp_raises_on_nonint_profile :
    applyMmgp envBadProfile mmgpOkCtx = MmgpOutcome.raisedValueError := by
  rfl

/-- C6 amended: whenever the MMGP_PROFILE environment value parses as an
integer, _apply_mmgp returns normally for every context: an absent mmgp
library, an empty extracted component set, a bad MMGP_VERBOSE value and a
failing tuning pass are all swallowed; only a non-integer MMGP_PROFILE
value escapes the boundary. -/
theorem mmgp_no_raise_when_profile_parses (env : Env) (ctx : MmgpCtx) (p : Int)
    (hp : pyInt (Env.getD env "MMGP_PROFILE" "1") = some p) :
    applyMmgp env ctx ≠ MmgpOutcome.raisedValueError := by
  intro hcontra
  simp only [applyMmgp, hp] at hcontra
  repeat' split at hcontra
  all_goals simp_all

/-- C6 witness: the empty environment parses to profile 1 and _apply_mmgp
returns normally there. -/
theorem mmgp_no_raise_witness :
    pyInt (Env.getD envEmpty "MMGP_PROFILE" "1") = some 1 ∧
    applyMmgp envEmpty mmgpOkCtx ≠ MmgpOutcome.raisedValueError :=
  ⟨by decide, mmgp_no_raise_when_profile_parses envEmpty mmgpOkCtx 1 (by decide)⟩

/-- C7 counterexample: with a config file present and MMGP_PROFILE set to
"abc", construction succeeds and assigns the singleton slot on api.py line
74, then _apply_mmgp raises on line 84; get_runtime propagates the error
while the slot stays set, so this failure path does not leave the slot
unset as the claim states. -/
theorem slot_set_despite_offload_raise :
    get_runtime envBadProfile fsConfigOnly runCtxOk none =
      (Except.error RuntimeError.mmgpValueError,
        some (mkRuntime envBadProfile fsConfigOnly)) := by
  rfl

/-- C7 amended: a failure in the config check or in the Runtime Handle
constructor leaves the singleton slot unset, but the slot is assigned
before the offload-policy application runs, so when that application
raises, the fully constructed instance remains cached. -/
theorem failure_slot_characterization (env : Env) (fs : Fs) (ctx : RunCtx)
    (e : RuntimeError) (st1 : Option T2MRuntime)
    (h : get_runtime env fs ctx none = (Except.error e, st1)) :
    (e ≠ RuntimeError.mmgpValueError → st1 = none) ∧
    (e = RuntimeError.mmgpValueError → st1 = some (mkRuntime env fs)) := by
  simp only [get_runtime] at h
  split at h
  · obtain ⟨h1, h2⟩ := Prod.mk.injEq .. |>.mp h
    injection h1 with h1
    subst h1
    exact ⟨fun _ => h2.symm, fun he => absurd he (by simp)⟩
  · split at h
    · obtain ⟨h1, h2⟩ := Prod.mk.injEq .. |>.mp h
      injection h1 with h1
      subst h1
      exact ⟨fun _ => h2.symm, fun he => absurd he (by simp)⟩
    · split at h
      · obtain ⟨h1, h2⟩ := Prod.mk.injEq .. |>.mp h
        injection h1 with h1
        subst h1
        exact ⟨fun hne => absurd rfl hne, fun _ => h2.symm⟩
      · obtain ⟨h1, h2⟩ := Prod.mk.injEq .. |>.mp h
        exact absurd h1 (by simp)

/-- C7 witness: a config-missing failure leaves the slot unset. -/
theorem failure_slot_witness :
    get_runtime envEmpty ([] : Fs) runCtxOk none =
      (Except.error (RuntimeError.fileNotFound ("Config not found: " ++ CONFIG_PATH envEmpty)),
        none) ∧
    (RuntimeError.fileNotFound ("Config not found: " ++ CONFIG_PATH envEmpty) ≠
        RuntimeError.mmgpValueError → (none : Option T2MRuntime) = none) :=
  ⟨rfl, (failure_slot_characterization envEmpty [] runCtxOk _ _ rfl).1⟩

/-- C8 counterexample: on an input already in plain-sequence form the
serializer is not a passthrough: a plain Python sequence has no tolist
method, so _tensor_to_list raises AttributeError instead of returning the
sequence unchanged. -/
theorem plain_sequence_not_passthrough :
    tensor_to_list (ArrayLike.plainList (NList.list [NList.scalar 1])) =
      Except.error PyError.attributeError := by
  rfl

/-- C8 amended: for every batched tensor or numpy input with a nonempty
leading batch axis, _tensor_to_list returns the plain nested sequence at
batch index 0, transferring device-resident tensors to host first and
selecting index 0 explicitly; an input already in plain-sequence form is
not passed through but raises AttributeError. -/
theorem serializer_batch0_and_plain_raises :
    (∀ (b : Bool) (h : NList) (t : List NList),
      tensor_to_list (ArrayLike.torch b (NList.list (h :: t))) = Except.ok h ∧
      tensor_to_list (ArrayLike.nparray (NList.list (h :: t))) = Except.ok h) ∧
    (∀ x : NList,
      tensor_to_list (ArrayLike.plainList x) = Except.error PyError.attributeError) :=
  ⟨fun _ _ _ => ⟨rfl, rfl⟩, fun _ => rfl⟩

/-- C1: when the config file is absent, every call to get_runtime starting
from the empty slot raises the file-not-found error without constructing a
Runtime Handle and leaves the slot empty, so the failure is not cached;
the generation endpoint maps the failure to a 503 response; and because
the slot stays empty, a later call against a filesystem that has the
config file constructs the runtime from scratch. -/
theorem config_missing_503_and_no_cache (env : Env) (fs : Fs) (ctx : RunCtx)
    (gen : MotionRequest → Option ModelOutput) (req : MotionRequest)
    (h : pathExists fs (CONFIG_PATH env) = false) :
    get_runtime env fs ctx none =
      (Except.error (RuntimeError.fileNotFound ("Config not found: " ++ CONFIG_PATH env)),
        none) ∧
    generate_motion env fs ctx gen none req =
      (Response.err 503 ("Model not available: " ++ ("Config not found: " ++ CONFIG_PATH env)),
        none) ∧
    (∀ (fs2 : Fs) (ctx2 : RunCtx),
      pathExists fs2 (CONFIG_PATH env) = true → ctx2.constructorOk = true →
      applyMmgp env ctx2.mmgp ≠ MmgpOutcome.raisedValueError →
      get_runtime env fs2 ctx2 (get_runtime env fs ctx none).2 =
        (Except.ok (mkRuntime env fs2), some (mkRuntime env fs2))) := by
  have hgr := get_runtime_config_missing env fs ctx h
  refine ⟨hgr, ?_, ?_⟩
  · simp only [generate_motion, hgr]
  · intro fs2 ctx2 h2 h3 h4
    rw [hgr]
    exact get_runtime_success env fs2 ctx2 h2 h3 h4

/-- C1 witness: the empty filesystem lacks the default config path, and a
call there fails with file-not-found while caching nothing. -/
theorem config_missing_witness :
    pathExists ([] : Fs) (CONFIG_PATH envEmpty) = false ∧
    get_runtime envEmpty [] runCtxOk none =
      (Except.error (RuntimeError.fileNotFound ("Config not found: " ++ CONFIG_PATH envEmpty)),
        none) :=
  ⟨by decide,
    (config_missing_503_and_no_cache envEmpty [] runCtxOk genNone reqWalk (by decide)).1⟩

/-- C4: the offload applier dispatches on the parsed profile integer: a
profile of at most zero is a no-op; when the tuning pass runs, profiles 1
and 3 pass no explicit budget, and every other positive profile passes
the fixed 4000-per-component budget ceiling. -/
theorem mmgp_profile_dispatch (env : Env) (ctx : MmgpCtx) (p v : Int)
    (hp : pyInt (Env.getD env "MMGP_PROFILE" "1") = some p)
    (hv : pyInt (Env.getD env "MMGP_VERBOSE" "1") = some v)
    (hlib : ctx.mmgpInstalled = true)
    (hpipe : ctx.pipeNonempty = true)
    (hcall : ctx.profileCallRaises = false) :
    (p ≤ 0 → applyMmgp env ctx = MmgpOutcome.noop) ∧
    ((p = 1 ∨ p = 3) → applyMmgp env ctx = MmgpOutcome.applied p v none) ∧
    (0 < p → p ≠ 1 → p ≠ 3 → applyMmgp env ctx = MmgpOutcome.applied p v (some 4000)) := by
  refine ⟨?_, ?_, ?_⟩
  · intro h0
    simp [applyMmgp, hp, h0]
  · rintro (rfl | rfl) <;> simp [applyMmgp, hp, hv, hlib, hpipe, hcall]
  · intro hpos h1 h3
    simp [applyMmgp, hp, hv, hlib, hpipe, hcall, h1, h3, hpos.not_le]

/-- C4 witness: profile 5 parses and receives the explicit 4000 budget. -/
theorem mmgp_profile_dispatch_witness :
    pyInt (Env.getD envProfile5 "MMGP_PROFILE" "1") = some 5 ∧
    applyMmgp envProfile5 mmgpOkCtx = MmgpOutcome.applied 5 1 (some 4000) :=
  ⟨by decide,
    (mmgp_profile_dispatch envProfile5 mmgpOkCtx 5 1 (by decide) (by decide) rfl rfl
        rfl).2.2 (by decide) (by decide) (by decide)⟩

/-- C9: when the checkpoint file is absent but the config file exists, the
constructor succeeds and the offload application returns normally,
get_runtime constructs the runtime with skip_model_loading set and caches
exactly that instance in the singleton slot. -/
theorem degraded_mode_constructs_and_caches (env : Env) (fs : Fs) (ctx : RunCtx)
    (hconf : pathExists fs (CONFIG_PATH env) = true)
    (hckpt : pathExists fs (CKPT_PATH env) = false)
    (hcons : ctx.constructorOk = true)
    (hmm : applyMmgp env ctx.mmgp ≠ MmgpOutcome.raisedValueError) :
    get_runtime env fs ctx none =
      (Except.ok (mkRuntime env fs), some (mkRuntime env fs)) ∧
    (mkRuntime env fs).skip_model_loading = true := by
  refine ⟨get_runtime_success env fs ctx hconf hcons hmm, ?_⟩
  simp [mkRuntime, hckpt]

/-- C9 witness: a filesystem holding only the config file yields a cached
degraded-mode runtime. -/
theorem degraded_mode_witness :
    pathExists fsConfigOnly (CONFIG_PATH envEmpty) = true ∧
    pathExists fsConfigOnly (CKPT_PATH envEmpty) = false ∧
    (get_runtime envEmpty fsConfigOnly runCtxNoLib none =
        (Except.ok (mkRuntime envEmpty fsConfigOnly), some (mkRuntime envEmpty fsConfigOnly)) ∧
      (mkRuntime envEmpty fsConfigOnly).skip_model_loading = true) :=
  ⟨by decide, by decide,
    degraded_mode_constructs_and_caches envEmpty fsConfigOnly runCtxNoLib
      (by decide) (by decide) rfl (by decide)⟩

/-- C3: for every valid request for which the endpoint returns a success
body, the fps field is the constant 30 whatever the requested duration,
and num_frames is axis 1 of the shape of the keypoints array the model
produced. -/
theorem success_frames_and_fps (env : Env) (fs : Fs) (ctx : RunCtx)
    (gen : MotionRequest → Option ModelOutput) (st : Option T2MRuntime)
    (req : MotionRequest) (body : ResponseBody) (st1 : Option T2MRuntime)
    (hvalid : req.valid = true)
    (h : generate_motion env fs ctx gen st req = (Response.ok body, st1)) :
    body.motion.fps = 30 ∧
    ∃ out, gen req = some out ∧
      (py_shape out.keypoints3d).bind (fun s => List.get? s 1) = some body.motion.num_frames := by
  simp only [generate_motion] at h
  split at h
  · simp at h
  · simp at h
  · split at h
    · simp at h
    · rename_i out hgen
      split at h
      · rename_i nf kp r6 tr rrm hsh hkp hr6 htr hrrm
        have hb := (Prod.mk.injEq .. |>.mp h).1
        injection hb with hb
        subst hb
        exact ⟨rfl, out, hgen, hsh⟩
      · simp at h

/-- C3 witness: a concrete two-frame generation yields num_frames 2 and
fps 30, at requested duration 3. -/
theorem success_frames_and_fps_witness :
    reqWalk.valid = true ∧
    generate_motion envEmpty fsConfigOnly runCtxNoLib genSmall none reqWalk =
      (Response.ok bodySmall, some (mkRuntime envEmpty fsConfigOnly)) ∧
    (bodySmall.motion.fps = 30 ∧
      ∃ out, genSmall reqWalk = some out ∧
        (py_shape out.keypoints3d).bind (fun s => List.get? s 1) =
          some bodySmall.motion.num_frames) :=
  ⟨by decide, rfl,
    success_frames_and_fps envEmpty fsConfigOnly runCtxNoLib genSmall none reqWalk
      bodySmall (some (mkRuntime envEmpty fsConfigOnly)) (by decide) rfl⟩

/-- C10: prompt engineering is disabled exactly when the environment value
of DISABLE_PROMPT_ENGINEERING lowercases to "true"; the import-time
setdefault makes an absent variable read back "True", which disables it;
and truthy-looking values such as "1" or "yes" leave it enabled. -/
theorem prompt_engineering_flag_iff (e : Env) (fs : Fs) :
    ((mkRuntime (initEnv e) fs).disable_prompt_engineering =
      (pyLower (Env.getD (initEnv e) "DISABLE_PROMPT_ENGINEERING" "true") == "true")) ∧
    (Env.get e "DISABLE_PROMPT_ENGINEERING" = none →
      (mkRuntime (initEnv e) fs).disable_prompt_engineering = true) ∧
    ((mkRuntime (initEnv [("DISABLE_PROMPT_ENGINEERING", "1")]) fs).disable_prompt_engineering
      = false) ∧
    ((mkRuntime (initEnv [("DISABLE_PROMPT_ENGINEERING", "yes")]) fs).disable_prompt_engineering
      = false) := by
  refine ⟨rfl, ?_, rfl, rfl⟩
  intro h
  have hT : Env.get (initEnv e) "DISABLE_PROMPT_ENGINEERING" = some "True" := by
    simp only [initEnv]
    rw [env_get_setdefault_ne _ _ _ _ (by decide)]
    apply env_get_setdefault_absent
    rw [env_get_setdefault_ne _ _ _ _ (by decide)]
    exact h
  show (pyLower (Env.getD (initEnv e) "DISABLE_PROMPT_ENGINEERING" "true") == "true") = true
  rw [Env.getD, hT]
  rfl

/-- C10 witness: in an environment without the variable, the runtime is
constructed with prompt engineering disabled. -/
theorem prompt_engineering_flag_witness :
    Env.get envEmpty "DISABLE_PROMPT_ENGINEERING" = none ∧
    (mkRuntime (initEnv envEmpty) fsConfigOnly).disable_prompt_engineering = true :=
  ⟨rfl, (prompt_engineering_flag_iff envEmpty fsConfigOnly).2.1 rfl⟩

end HYMotion
